import Mathlib

/-!
Shallow embedding of the lifecycle orchestration and health-aggregation core
of the InnoCore API application (src/api/main.py): the `lifespan` startup and
teardown sections, the `/health` endpoint handler `health_check`, and the
global exception handler `global_exception_handler`.

Python exceptions are modelled as values carrying the result of `str(e)`:
`some s` when string conversion returns the string `s`, and `none` when the
exception's own string conversion raises (a `__str__` method that throws).
Awaited calls that may raise are modelled as `Except PyExc` results supplied
as inputs; the embedded functions return the trace of observable events they
perform together with the exception, if any, that escapes them.
-/

namespace InnoCore

/-- A Python exception value as observed by this layer. `toStr` is the
outcome of `str(e)`: `some s` when conversion succeeds with `s` (which may
be the empty string, as for `Exception()`), `none` when `str(e)` itself
raises. -/
structure PyExc where
  toStr : Option String
deriving Repr, DecidableEq

/-- The three optional subsystems initialized by `lifespan`:
`db_manager` (persistence), `vector_store_manager` (vector index), and
`agent_controller` (agent pool). -/
inductive Subsys
  | db
  | vector
  | agent
deriving Repr, DecidableEq

/-- Observable events of the `lifespan` startup and teardown sections. -/
inductive Ev
  /-- a subsystem's `initialize()` coroutine was awaited -/
  | initCall (s : Subsys)
  /-- that `initialize()` returned normally -/
  | initDone (s : Subsys)
  /-- `logger.warning` ran for a failed `initialize()`; `msg` is the
  `str(e)` text interpolated into the warning -/
  | warn (s : Subsys) (msg : String)
  /-- `asyncio.create_task(agent_controller.start_task_processor())` ran -/
  | taskProcStart
  /-- a subsystem's teardown coroutine (`shutdown()` for the agent pool,
  `close()` for the others) was awaited -/
  | shutdownCall (s : Subsys)
  /-- that teardown call returned normally -/
  | shutdownDone (s : Subsys)
deriving Repr, DecidableEq

/-- One `try: await X.initialize() ... except Exception as e:
logger.warning(f"... \x7bstr(e)\x7d")` block of `lifespan`
(src/api/main.py lines 30-34, 37-41, 44-53). `extra` is the events the
`try` body performs after a successful `initialize()` (the
`create_task(start_task_processor())` step in the agent-pool block, empty
for the others). On failure, the `except` clause evaluates `str(e)` while
formatting the warning; if that conversion itself raises, the new exception
escapes the block, since the formatting happens outside the `try`. -/
def startupStep (s : Subsys) (r : Except PyExc Unit) (extra : List Ev) :
    List Ev × Option PyExc :=
  match r with
  | .ok _ => ([Ev.initCall s, Ev.initDone s] ++ extra, none)
  | .error e =>
    match e.toStr with
    | some m => ([Ev.initCall s, Ev.warn s m], none)
    | none => ([Ev.initCall s], some e)

/-- Startup section of `lifespan` (src/api/main.py lines 26-55): awaits
`db_manager.initialize()`, then `vector_store_manager.initialize()`, then
`agent_controller.initialize()` followed by
`asyncio.create_task(agent_controller.start_task_processor())`, each block
in its own `try/except Exception` that logs a warning and continues. The
arguments are the outcomes of the three `initialize()` calls. Returns the
event trace and the exception escaping the startup section, if any. -/
def lifespan_startup (rdb rvec ragent : Except PyExc Unit) :
    List Ev × Option PyExc :=
  let st1 := startupStep .db rdb []
  match st1.2 with
  | some ex => (st1.1, some ex)
  | none =>
    let st2 := startupStep .vector rvec []
    match st2.2 with
    | some ex => (st1.1 ++ st2.1, some ex)
    | none =>
      let st3 := startupStep .agent ragent [Ev.taskProcStart]
      (st1.1 ++ st2.1 ++ st3.1, st3.2)

/-- Teardown section of `lifespan` (src/api/main.py lines 59-64): awaits
`agent_controller.shutdown()`, then `db_manager.close()`, then
`vector_store_manager.close()`, in that order, with no exception handling
around any of the three calls. The arguments are the outcomes of the three
teardown calls. Returns the event trace and the exception escaping the
teardown section, if any. -/
def lifespan_teardown (ragent rdb rvec : Except PyExc Unit) :
    List Ev × Option PyExc :=
  match ragent with
  | .error e => ([Ev.shutdownCall .agent], some e)
  | .ok _ =>
    match rdb with
    | .error e =>
      ([Ev.shutdownCall .agent, Ev.shutdownDone .agent,
        Ev.shutdownCall .db], some e)
    | .ok _ =>
      match rvec with
      | .error e =>
        ([Ev.shutdownCall .agent, Ev.shutdownDone .agent,
          Ev.shutdownCall .db, Ev.shutdownDone .db,
          Ev.shutdownCall .vector], some e)
      | .ok _ =>
        ([Ev.shutdownCall .agent, Ev.shutdownDone .agent,
          Ev.shutdownCall .db, Ev.shutdownDone .db,
          Ev.shutdownCall .vector, Ev.shutdownDone .vector], none)

/-- Per-agent status as it appears inside the `agents` mapping of the agent
pool's status report; `health_check` passes the mapping through unchanged,
so only the `state` token matters to this layer. -/
structure AgentInfo where
  state : String
deriving Repr, DecidableEq

/-- The `stats` object assembled by `health_check` from the agent pool's
counters. -/
structure Stats where
  active_tasks : Int
  queued_tasks : Int
  completed_tasks : Int
  max_concurrent : Int
deriving Repr, DecidableEq

/-- The dictionary returned by `agent_controller.get_agent_status()`, seen
through the only accesses `health_check` makes to it: `.get` on the five
keys `agents`, `active_tasks`, `queued_tasks`, `completed_tasks`,
`max_concurrent`. A `none` field models an absent key. -/
structure AgentStatusDict where
  agents : Option (List (String × AgentInfo))
  active_tasks : Option Int
  queued_tasks : Option Int
  completed_tasks : Option Int
  max_concurrent : Option Int
deriving Repr, DecidableEq

/-- The two response shapes of `GET /health`: the plain dict returned on
success (FastAPI serves it with status 200) and the
`JSONResponse(status_code=503, ...)` returned from the `except` branch. -/
inductive HealthResponse
  | healthy (timestamp : String) (agents : List (String × AgentInfo))
      (stats : Stats)
  | unhealthy (error : String)
deriving Repr, DecidableEq

/-- HTTP status code carried by each `GET /health` response shape: 200 for
the plain success dict, 503 for the explicit `JSONResponse`. -/
def HealthResponse.statusCode : HealthResponse → Nat
  | .healthy _ _ _ => 200
  | .unhealthy _ => 503

/-- The `status` field of each `GET /health` response body. -/
def HealthResponse.statusField : HealthResponse → String
  | .healthy _ _ _ => "healthy"
  | .unhealthy _ => "unhealthy"

/-- The `health_check` handler (src/api/main.py lines 120-144). `ts` stands
for `datetime.now(timezone.utc).isoformat()` and `q` for the outcome of
`await agent_controller.get_agent_status()`. On success it builds the
healthy dict with `agent_status.get("agents", \x7b\x7d)` and the four
counters via `.get(key, 0)`. If the awaited call raises, the `except`
branch builds the 503 body with `"error": str(e)`; evaluating `str(e)`
can itself raise, in which case that exception escapes the handler. -/
def health_check (ts : String) (q : Except PyExc AgentStatusDict) :
    Except PyExc HealthResponse :=
  match q with
  | .ok d =>
    .ok (.healthy ts (d.agents.getD [])
      { active_tasks := d.active_tasks.getD 0
        queued_tasks := d.queued_tasks.getD 0
        completed_tasks := d.completed_tasks.getD 0
        max_concurrent := d.max_concurrent.getD 0 })
  | .error e =>
    match e.toStr with
    | some m => .ok (.unhealthy m)
    | none => .error e

/-- Modelled from the spec: the behavior of
`agent_controller.get_agent_status()` when the agent pool's `initialize()`
failed at startup. The controller module `agents/controller.py` is not part
of the sources here; per the spec, when the agent pool failed to initialize
the status query still succeeds and `/health` reports an empty or absent
`agents` map rather than raising, so the query returns a status dictionary
with no agents and no counters. -/
def get_agent_status_degraded : Except PyExc AgentStatusDict :=
  .ok { agents := none
        active_tasks := none
        queued_tasks := none
        completed_tasks := none
        max_concurrent := none }

/-- The JSON body produced by the global exception handler. -/
structure ErrorBody where
  error : String
  message : String
deriving Repr, DecidableEq

/-- The `global_exception_handler` (src/api/main.py lines 436-446). `debug`
is `config.debug` and `exc` the exception being handled. The handler first
evaluates `str(exc)` inside the f-string passed to `logger.error`; if that
conversion raises, the new exception escapes the handler, since nothing in
the handler catches it. Otherwise it returns
`JSONResponse(status_code=500, ...)` whose `message` is `str(exc)` when
`config.debug` is true and the fixed string otherwise. -/
def global_exception_handler (debug : Bool) (exc : PyExc) :
    Except PyExc (Nat × ErrorBody) :=
  match exc.toStr with
  | none => .error exc
  | some m =>
    .ok (500,
      { error := "Internal server error"
        message := if debug then m else "Something went wrong" })

/-- Recognizes `initCall` events, for extracting the order in which the
startup section attempts the subsystems. -/
def isInitCall : Ev → Bool
  | .initCall _ => true
  | _ => false

/-- Recognizes `shutdownCall` events, for extracting the order in which the
teardown section invokes the subsystem teardowns. -/
def isShutdownCall : Ev → Bool
  | .shutdownCall _ => true
  | _ => false

/-- Recognizes the two events that mark the task processor's launch and
the agent pool's successful `initialize()`, for stating when and in what
order the startup section launches `start_task_processor`. -/
def isProcMark : Ev → Bool
  | .taskProcStart => true
  | .initDone .agent => true
  | _ => false

/-- C4: when the agent-pool status call succeeds with all keys present,
`GET /health` returns status 200, `status` field `"healthy"`, the `agents`
mapping as reported, and a `stats` object carrying exactly the four
reported counters; in particular the pool report with counters 2, 5, 100,
10 and one agent `hunter` in state `"running"` yields exactly those values. -/
theorem health_success_report (ts : String)
    (A : List (String × AgentInfo)) (a q c mx : Int) :
    health_check ts (.ok ⟨some A, some a, some q, some c, some mx⟩)
      = .ok (.healthy ts A ⟨a, q, c, mx⟩) ∧
    (HealthResponse.healthy ts A ⟨a, q, c, mx⟩).statusCode = 200 ∧
    (HealthResponse.healthy ts A ⟨a, q, c, mx⟩).statusField = "healthy" ∧
    health_check ts
        (.ok ⟨some [("hunter", ⟨"running"⟩)],
          some 2, some 5, some 100, some 10⟩)
      = .ok (.healthy ts [("hunter", ⟨"running"⟩)] ⟨2, 5, 100, 10⟩) :=
  ⟨rfl, rfl, rfl, rfl⟩

/-- C10: when the agent-pool status call succeeds, `GET /health` returns
200 with `status` `"healthy"` whatever keys are absent, substituting the
empty mapping for an absent `agents` key (`Option.getD` of `none` is the
default) and 0 for each absent counter, never failing or omitting a field. -/
theorem health_missing_keys (ts : String)
    (ag : Option (List (String × AgentInfo))) (a q c mx : Option Int) :
    health_check ts (.ok ⟨ag, a, q, c, mx⟩)
      = .ok (.healthy ts (ag.getD [])
          ⟨a.getD 0, q.getD 0, c.getD 0, mx.getD 0⟩) ∧
    (HealthResponse.healthy ts (ag.getD [])
        ⟨a.getD 0, q.getD 0, c.getD 0, mx.getD 0⟩).statusCode = 200 ∧
    (HealthResponse.healthy ts (ag.getD [])
        ⟨a.getD 0, q.getD 0, c.getD 0, mx.getD 0⟩).statusField = "healthy" ∧
    (Option.getD (α := List (String × AgentInfo)) none [] = [] ∧
      Option.getD (α := Int) none 0 = 0) :=
  ⟨rfl, rfl, rfl, rfl, rfl⟩

/-- C8 (agent pool degraded at startup): with the status query modelled
from the spec as succeeding with no agents recorded, `GET /health` returns
200 with `status` `"healthy"`, an empty `agents` mapping and zero counters,
rather than raising or returning an error status. -/
theorem health_degraded_pool (ts : String) :
    health_check ts get_agent_status_degraded
      = .ok (.healthy ts [] ⟨0, 0, 0, 0⟩) ∧
    (HealthResponse.healthy ts [] ⟨0, 0, 0, 0⟩).statusCode = 200 ∧
    (HealthResponse.healthy ts [] ⟨0, 0, 0, 0⟩).statusField = "healthy" :=
  ⟨rfl, rfl, rfl⟩

/-- C5 counterexample: an exception whose `str(e)` is the empty string (as
for a bare `Exception()`) yields a 503 body whose `error` field is the
empty string, so the `error` field is not always non-empty; and an
exception whose string conversion itself raises escapes the handler instead
of producing the 503 response at all. -/
theorem health_error_cex :
    health_check "t" (.error ⟨some ""⟩) = .ok (.unhealthy "") ∧
    health_check "t" (.error ⟨none⟩) = .error ⟨none⟩ :=
  ⟨rfl, rfl⟩

/-- C5 amended: for every exception whose string conversion succeeds,
`GET /health` returns 503 with `status` `"unhealthy"` and `error` equal to
the conversion result, which is empty exactly when that result is empty;
and the handler produces a healthy-shaped response exactly when the
underlying status call succeeds. -/
theorem health_unhealthy_mapping (ts : String) (e : PyExc) (m : String)
    (h : e.toStr = some m) :
    health_check ts (.error e) = .ok (.unhealthy m) ∧
    (HealthResponse.unhealthy m).statusCode = 503 ∧
    (HealthResponse.unhealthy m).statusField = "unhealthy" ∧
    ∀ q : Except PyExc AgentStatusDict,
      (∃ tm ag st, health_check ts q = .ok (.healthy tm ag st)) ↔
        ∃ d, q = .ok d := by
  refine ⟨by simp [health_check, h], rfl, rfl, ?_⟩
  intro q
  constructor
  · rintro ⟨tm, ag, st, hq⟩
    cases q with
    | ok d => exact ⟨d, rfl⟩
    | error e' =>
      cases he : e'.toStr with
      | some m' => simp [health_check, he] at hq
      | none => simp [health_check, he] at hq
  · rintro ⟨d, rfl⟩
    exact ⟨ts, d.agents.getD [],
      ⟨d.active_tasks.getD 0, d.queued_tasks.getD 0,
        d.completed_tasks.getD 0, d.max_concurrent.getD 0⟩, rfl⟩

/-- C5 witness: the amended statement instantiated at an exception whose
string conversion yields `"boom"`. -/
theorem health_unhealthy_mapping_witness :
    health_check "t" (.error ⟨some "boom"⟩) = .ok (.unhealthy "boom") :=
  (health_unhealthy_mapping "t" ⟨some "boom"⟩ "boom" rfl).1

/-- C6 counterexample: with debug off, an exception whose string conversion
raises escapes the global handler instead of producing the 500 response
with the fixed body, because the handler evaluates `str(exc)` in the
logging f-string before building any response; so the claimed response is
not produced for every exception reaching the handler. -/
theorem debug_gate_cex :
    global_exception_handler false ⟨none⟩ = .error ⟨none⟩ :=
  rfl

/-- C6 amended: for every unhandled exception whose string conversion
succeeds, with debug off the handler returns exactly status 500 with body
error `"Internal server error"` and message `"Something went wrong"`, the
conversion result appearing nowhere in the body; with debug on the same
exception yields the conversion result as the `message`; the two responses
agree on status code and `error` field and differ only in `message`. -/
theorem debug_gate (e : PyExc) (m : String) (h : e.toStr = some m) :
    global_exception_handler false e
      = .ok (500, ⟨"Internal server error", "Something went wrong"⟩) ∧
    global_exception_handler true e
      = .ok (500, ⟨"Internal server error", m⟩) := by
  constructor <;> simp [global_exception_handler, h]

/-- C6 witness: the amended statement instantiated at an exception whose
string conversion yields `"secret detail"`. -/
theorem debug_gate_witness :
    global_exception_handler false ⟨some "secret detail"⟩
      = .ok (500, ⟨"Internal server error", "Something went wrong"⟩) ∧
    global_exception_handler true ⟨some "secret detail"⟩
      = .ok (500, ⟨"Internal server error", "secret detail"⟩) :=
  debug_gate ⟨some "secret detail"⟩ "secret detail" rfl

/-- C9 counterexample: the global handler is not total: for an exception
whose string conversion raises, the handler itself raises (with either
debug setting) rather than degrading to the fixed generic body, since
`str(exc)` is evaluated unguarded in the logging f-string. -/
theorem handler_throws_cex :
    global_exception_handler true ⟨none⟩ = .error ⟨none⟩ ∧
    global_exception_handler true ⟨none⟩
      ≠ .ok (500, ⟨"Internal server error", "Something went wrong"⟩) := by
  exact ⟨rfl, by simp [global_exception_handler]⟩

/-- C9 amended: the global handler produces a 500 response for exactly the
exceptions whose string conversion succeeds; when the conversion itself
raises, the handler propagates that failure instead of degrading to the
fixed generic body. -/
theorem handler_formatting (b : Bool) (e : PyExc) :
    ((∃ m, e.toStr = some m) →
      ∃ body, global_exception_handler b e = .ok (500, body)) ∧
    (e.toStr = none → global_exception_handler b e = .error e) := by
  constructor
  · rintro ⟨m, hm⟩
    exact ⟨⟨"Internal server error",
      if b then m else "Something went wrong"⟩,
      by simp [global_exception_handler, hm]⟩
  · intro hn
    simp [global_exception_handler, hn]

/-- C9 witness: the amended statement instantiated at an exception whose
string conversion yields `"oops"`. -/
theorem handler_formatting_witness :
    ∃ body, global_exception_handler false ⟨some "oops"⟩ = .ok (500, body) :=
  (handler_formatting false ⟨some "oops"⟩).1 ⟨"oops", rfl⟩

/-- C1 counterexample: if `db_manager.initialize()` raises an exception
whose own string conversion raises, the `except` clause's warning
formatting re-raises outside the `try`, the startup section aborts, and the
vector-store and agent-pool `initialize()` calls are never attempted — so
startup does not complete without raising for every combination of
initialization failures. -/
theorem startup_claim_cex :
    (lifespan_startup (.error ⟨none⟩) (.ok ()) (.ok ())).2 = some ⟨none⟩ ∧
    Ev.initCall .vector ∉ (lifespan_startup (.error ⟨none⟩) (.ok ()) (.ok ())).1 ∧
    Ev.initCall .agent ∉ (lifespan_startup (.error ⟨none⟩) (.ok ()) (.ok ())).1 := by
  decide

/-- C1 amended: for every combination of initialization failures whose
exceptions stringify successfully, startup completes without raising, the
three `initialize()` calls are attempted in the fixed order persistence,
vector index, agent pool, each failure is logged as a warning carrying its
`str(e)` text, and each success completes its `initialize()`. -/
theorem startup_failure_isolation (rdb rvec rag : Except PyExc Unit)
    (h1 : ∀ e, rdb = .error e → e.toStr ≠ none)
    (h2 : ∀ e, rvec = .error e → e.toStr ≠ none)
    (h3 : ∀ e, rag = .error e → e.toStr ≠ none) :
    (lifespan_startup rdb rvec rag).2 = none ∧
    (lifespan_startup rdb rvec rag).1.filter isInitCall
      = [Ev.initCall .db, Ev.initCall .vector, Ev.initCall .agent] ∧
    (∀ e, rdb = .error e →
      ∃ m, e.toStr = some m ∧ Ev.warn .db m ∈ (lifespan_startup rdb rvec rag).1) ∧
    (∀ e, rvec = .error e →
      ∃ m, e.toStr = some m ∧ Ev.warn .vector m ∈ (lifespan_startup rdb rvec rag).1) ∧
    (∀ e, rag = .error e →
      ∃ m, e.toStr = some m ∧ Ev.warn .agent m ∈ (lifespan_startup rdb rvec rag).1) ∧
    (rdb = .ok () → Ev.initDone .db ∈ (lifespan_startup rdb rvec rag).1) ∧
    (rvec = .ok () → Ev.initDone .vector ∈ (lifespan_startup rdb rvec rag).1) ∧
    (rag = .ok () → Ev.initDone .agent ∈ (lifespan_startup rdb rvec rag).1) := by
  rcases rdb with e1 | u1
  all_goals rcases rvec with e2 | u2
  all_goals rcases rag with e3 | u3
  all_goals try cases u1
  all_goals try cases u2
  all_goals try cases u3
  all_goals try rcases he1 : e1.toStr with _ | m1
  all_goals try rcases he2 : e2.toStr with _ | m2
  all_goals try rcases he3 : e3.toStr with _ | m3
  all_goals simp_all [lifespan_startup, startupStep, isInitCall]

/-- C1 witness: the amended statement instantiated at a startup where the
persistence layer fails with an exception stringifying to "db down" while
the other two subsystems succeed. -/
theorem startup_failure_isolation_witness :
    (lifespan_startup (.error ⟨some "db down"⟩) (.ok ()) (.ok ())).2 = none :=
  (startup_failure_isolation (.error ⟨some "db down"⟩) (.ok ()) (.ok ())
    (by intro e h; cases h; simp)
    (by intro e h; cases h)
    (by intro e h; cases h)).1

/-- C7: the task processor is never launched when the agent pool's
`initialize()` raises; whenever that `initialize()` completes successfully
(the agent-ready event is in the trace, equivalently the agent call
succeeds and startup completes), the launch event occurs exactly once in
the whole trace and directly after the agent-ready event — the subtrace of
launch and agent-ready marks is exactly ready-then-launch; and a launch
event occurs only in traces where the agent pool completed `initialize()`. -/
theorem task_processor_gated (rdb rvec rag : Except PyExc Unit) :
    ((lifespan_startup rdb rvec rag).1.filter isProcMark = [] ∨
      (lifespan_startup rdb rvec rag).1.filter isProcMark
        = [Ev.initDone .agent, Ev.taskProcStart]) ∧
    (∀ e, rag = .error e →
      Ev.taskProcStart ∉ (lifespan_startup rdb rvec rag).1) ∧
    (Ev.initDone .agent ∈ (lifespan_startup rdb rvec rag).1 →
      (lifespan_startup rdb rvec rag).1.filter isProcMark
        = [Ev.initDone .agent, Ev.taskProcStart]) ∧
    (Ev.taskProcStart ∈ (lifespan_startup rdb rvec rag).1 →
      Ev.initDone .agent ∈ (lifespan_startup rdb rvec rag).1) ∧
    (rag = .ok () → (lifespan_startup rdb rvec rag).2 = none →
      (lifespan_startup rdb rvec rag).1.filter isProcMark
        = [Ev.initDone .agent, Ev.taskProcStart]) := by
  rcases rdb with e1 | u1
  all_goals rcases rvec with e2 | u2
  all_goals rcases rag with e3 | u3
  all_goals try rcases he1 : e1.toStr with _ | m1
  all_goals try rcases he2 : e2.toStr with _ | m2
  all_goals try rcases he3 : e3.toStr with _ | m3
  all_goals simp_all [lifespan_startup, startupStep, isProcMark]

/-- C7 witness: the launch-suppression part instantiated at a startup
where the agent pool fails with an exception stringifying to "agent down",
and the launch-on-success part instantiated at a fully successful startup. -/
theorem task_processor_gated_witness :
    Ev.taskProcStart ∉
      (lifespan_startup (.ok ()) (.ok ()) (.error ⟨some "agent down"⟩)).1 ∧
    (lifespan_startup (.ok ()) (.ok ()) (.ok ())).1.filter isProcMark
      = [Ev.initDone .agent, Ev.taskProcStart] :=
  ⟨(task_processor_gated (.ok ()) (.ok ())
      (.error ⟨some "agent down"⟩)).2.1 ⟨some "agent down"⟩ rfl,
   (task_processor_gated (.ok ()) (.ok ()) (.ok ())).2.2.2.2 rfl rfl⟩

/-- C2 counterexample: when `agent_controller.shutdown()` raises an
exception stringifying to "boom", the teardown section propagates it and
never calls `db_manager.close()` or `vector_store_manager.close()`, so
teardown failures are neither caught nor ignored and the remaining
teardown calls are skipped. -/
theorem teardown_claim_cex :
    (lifespan_teardown (.error ⟨some "boom"⟩) (.ok ()) (.ok ())).2
      = some ⟨some "boom"⟩ ∧
    Ev.shutdownCall .db
      ∉ (lifespan_teardown (.error ⟨some "boom"⟩) (.ok ()) (.ok ())).1 ∧
    Ev.shutdownCall .vector
      ∉ (lifespan_teardown (.error ⟨some "boom"⟩) (.ok ()) (.ok ())).1 := by
  decide

/-- C2 amended: the teardown section awaits the three teardown calls in
order with no exception handling: it completes without raising exactly
when all three succeed, in which case each teardown is attempted exactly
once; when one raises, its exception propagates out of the teardown
section and the teardown calls after it are skipped. -/
theorem teardown_propagation (ra rd rv : Except PyExc Unit) :
    ((lifespan_teardown ra rd rv).2 = none ↔
      ra = .ok () ∧ rd = .ok () ∧ rv = .ok ()) ∧
    ((lifespan_teardown ra rd rv).2 = none →
      (lifespan_teardown ra rd rv).1
        = [Ev.shutdownCall .agent, Ev.shutdownDone .agent,
           Ev.shutdownCall .db, Ev.shutdownDone .db,
           Ev.shutdownCall .vector, Ev.shutdownDone .vector]) ∧
    (∀ e, ra = .error e →
      (lifespan_teardown ra rd rv).2 = some e ∧
      Ev.shutdownCall .db ∉ (lifespan_teardown ra rd rv).1 ∧
      Ev.shutdownCall .vector ∉ (lifespan_teardown ra rd rv).1) ∧
    (∀ e, ra = .ok () → rd = .error e →
      (lifespan_teardown ra rd rv).2 = some e ∧
      Ev.shutdownCall .vector ∉ (lifespan_teardown ra rd rv).1) ∧
    (∀ e, ra = .ok () → rd = .ok () → rv = .error e →
      (lifespan_teardown ra rd rv).2 = some e) := by
  rcases ra with e1 | u1
  all_goals rcases rd with e2 | u2
  all_goals rcases rv with e3 | u3
  all_goals try cases u1
  all_goals try cases u2
  all_goals try cases u3
  all_goals simp_all [lifespan_teardown]

/-- C2 witness: the completion part of the amended statement instantiated
at a teardown where all three calls succeed. -/
theorem teardown_propagation_witness :
    (lifespan_teardown (.ok ()) (.ok ()) (.ok ())).2 = none :=
  (teardown_propagation (.ok ()) (.ok ()) (.ok ())).1.mpr ⟨rfl, rfl, rfl⟩

/-- C3 counterexample: in a fully successful teardown, the teardown calls
run in the order agent pool, persistence, vector index — not the claimed
exact reverse of the startup order, which would be agent pool, vector
index, persistence. -/
theorem teardown_order_cex :
    (lifespan_teardown (.ok ()) (.ok ()) (.ok ())).1.filter isShutdownCall
      = [Ev.shutdownCall .agent, Ev.shutdownCall .db,
         Ev.shutdownCall .vector] ∧
    [Ev.shutdownCall .agent, Ev.shutdownCall .db, Ev.shutdownCall .vector]
      ≠ [Ev.shutdownCall .agent, Ev.shutdownCall .vector,
         Ev.shutdownCall .db] := by
  decide

/-- C3 amended: teardown stops the agent pool first (`shutdown()` before
either `close()`), but then closes the persistence layer before the vector
index — the last two run in startup order, not reversed; a fully
successful teardown performs exactly the six events in that order. -/
theorem teardown_actual_order (ra rd rv : Except PyExc Unit)
    (ha : ra = .ok ()) (hd : rd = .ok ()) (hv : rv = .ok ()) :
    (lifespan_teardown ra rd rv).1
      = [Ev.shutdownCall .agent, Ev.shutdownDone .agent,
         Ev.shutdownCall .db, Ev.shutdownDone .db,
         Ev.shutdownCall .vector, Ev.shutdownDone .vector] ∧
    (lifespan_teardown ra rd rv).2 = none := by
  subst ha hd hv
  exact ⟨rfl, rfl⟩

/-- C3 witness: the amended statement instantiated at a teardown where all
three calls succeed. -/
theorem teardown_actual_order_witness :
    (lifespan_teardown (.ok ()) (.ok ()) (.ok ())).1
      = [Ev.shutdownCall .agent, Ev.shutdownDone .agent,
         Ev.shutdownCall .db, Ev.shutdownDone .db,
         Ev.shutdownCall .vector, Ev.shutdownDone .vector] ∧
    (lifespan_teardown (.ok ()) (.ok ()) (.ok ())).2 = none :=
  teardown_actual_order (.ok ()) (.ok ()) (.ok ()) rfl rfl rfl

end InnoCore
